import Mathlib

set_option maxRecDepth 16000

/-!
Verification development for the News-Tracker pipeline.

Shallow embedding of the core modules (`src/dedupe.py`, `src/quality_gates.py`,
`src/pipeline.py`, `src/monitor.py`).  Python strings are modelled as Lean
`String`s, the sqlite `article_hashes` table as a list of rows in rowid
(insertion) order, similarity scores as rationals (Python floats abstracted to
exact arithmetic), the external SHA-256 primitive (`hashlib.sha256(...).hexdigest()`)
as an arbitrary function parameter, and the sentence-transformer embedding
oracle as a function into `Except` (an `Except.error` models a raised
exception, `Except.ok none` models "ML dependencies unavailable").
-/

namespace NewsTracker

/-! ### Python string primitives

Character-level models of the Python `str` operations that the code uses
(`lower`, `strip`, `split`, slicing, substring test).  Restricted to the
ASCII fragment, which is what every claim exercises. -/

/-- Characters Python `str.strip` / `str.split` treat as whitespace (ASCII part). -/
def pyIsSpace (c : Char) : Bool :=
  c = ' ' || c = '\t' || c = '\n' || c = '\x0d' || c = '\x0b' || c = '\x0c'

/-- `str.strip()` on the character list. -/
def pyStrip (cs : List Char) : List Char :=
  ((cs.dropWhile pyIsSpace).reverse.dropWhile pyIsSpace).reverse

/-- `str.strip()` at the `String` level. -/
def pyStripStr (s : String) : String :=
  String.mk (pyStrip s.toList)

/-- Helper for `str.split()` (no separator): split on whitespace runs, dropping
empty fields; `acc` holds the current word reversed. -/
def splitWsAux : List Char → List Char → List (List Char)
  | [], acc => if acc = [] then [] else [acc.reverse]
  | c :: cs, acc =>
    if pyIsSpace c then
      if acc = [] then splitWsAux cs [] else acc.reverse :: splitWsAux cs []
    else
      splitWsAux cs (c :: acc)

/-- Python `text.split()`. -/
def pySplitWs (cs : List Char) : List (List Char) :=
  splitWsAux cs []

/-- Python `" ".join(words)`. -/
def joinSpace (ws : List (List Char)) : List Char :=
  List.intercalate [' '] ws

/-- Python `s[:n]` (slice of the first `n` characters). -/
def pyTake (n : Nat) (s : String) : String :=
  String.mk (s.toList.take n)

/-- Contiguous-substring test on character lists. -/
def infixOfCL (needle : List Char) : List Char → Bool
  | [] => needle.isPrefixOf []
  | c :: rest => needle.isPrefixOf (c :: rest) || infixOfCL needle rest

/-- Python `needle in haystack` on strings. -/
def pyContains (haystack needle : String) : Bool :=
  infixOfCL needle.toList haystack.toList

/-- Python `s.lower()` (ASCII fragment). -/
def pyLower (s : String) : String :=
  String.mk (s.toList.map Char.toLower)

/-- Python `str(x)` on an `Optional[str]` value (`None` prints as `"None"`). -/
def optStr : Option String → String
  | some s => s
  | none => "None"

/-! ### Deduplicator (`src/dedupe.py`) -/

/-- One row of the sqlite table `article_hashes` (primary key `hash_id`). -/
structure HashRow where
  hash_id : String
  canonical_url : String
  normalized_title : String
  title_hash : String
  body_hash : Option String
  created_at : String
  wp_post_id : Option Int
deriving Repr, DecidableEq

/-- The `article_hashes` table, rows in rowid (insertion) order. -/
abbrev HashStore := List HashRow

/-- `Deduplicator._normalize_title`: lowercase, strip, replace the punctuation
characters `".,;:!?-_"` with spaces, collapse whitespace runs. -/
def normalize_title (title : String) : String :=
  if title = "" then ""
  else
    let lowered := (title.toList.map Char.toLower)
    let stripped := pyStrip lowered
    let replaced := stripped.map fun c =>
      if c ∈ ['.', ',', ';', ':', '!', '?', '-', '_'] then ' ' else c
    String.mk (joinSpace (pySplitWs replaced))

/-- The result dictionary of `Deduplicator.check_duplicate`.  `wp_post_id` is
`none` when the key is absent from the returned dict (the not-a-duplicate
branch omits it). -/
structure DupDecision where
  is_duplicate : Bool
  reason : Option String
  similar_to : Option String
  wp_post_id : Option (Option Int)
  similarity_score : Option ℚ
deriving Repr, DecidableEq

/-- The `Deduplicator` with its external capabilities.  `E` is the type of
embedding vectors.  `hash` models `hashlib.sha256(...).hexdigest()` (an opaque
deterministic function of the input text); `embed` models
`model.encode(text, ...)` together with model availability: `Except.error`
is a raised exception, `Except.ok none` means the ML dependencies are missing
(`_get_model` returned `None`); `cosine` models `np.dot` on normalized
embeddings. -/
structure Deduplicator (E : Type) where
  hash : String → String
  embed : String → Except String (Option E)
  cosine : E → E → ℚ
  similarity_threshold : ℚ

/-- `Deduplicator._compute_embedding`: truncate to 1000 characters, then encode. -/
def Deduplicator.compute_embedding {E : Type} (d : Deduplicator E) (text : String) :
    Except String (Option E) :=
  d.embed (if text.toList.length > 1000 then pyTake 1000 text else text)

/-- The `for match in title_matches` loop of check 3: threads
`(best_similarity, best_match)`; a raised exception aborts the whole loop. -/
def bestMatchLoop {E : Type} (d : Deduplicator E) (curEmb : E) :
    List HashRow → ℚ → Option (String × Option Int) →
    Except String (ℚ × Option (String × Option Int))
  | [], best, bm => Except.ok (best, bm)
  | row :: rest, best, bm => do
    let emb? ← d.compute_embedding row.normalized_title
    match emb? with
    | none => bestMatchLoop d curEmb rest best bm
    | some membv =>
      let similarity := d.cosine curEmb membv
      if similarity > best then
        bestMatchLoop d curEmb rest similarity (some (row.hash_id, row.wp_post_id))
      else
        bestMatchLoop d curEmb rest best bm

/-- The `try:` block of check 3 (semantic title similarity).  Returns
`Except.error` when the oracle raises (caught by the `except` in
`check_duplicate`), `Except.ok none` when the check does not flag a duplicate.
The `best_match[0]` subscript of `None` (possible when
`similarity_threshold ≤ 0`) raises a `TypeError`, also caught. -/
def semanticCheck {E : Type} (d : Deduplicator E) (normalized_title : String)
    (title_matches : List HashRow) : Except String (Option DupDecision) := do
  let cur ← d.compute_embedding normalized_title
  match cur with
  | none => pure none
  | some curEmb =>
    let (best_similarity, best_match) ← bestMatchLoop d curEmb title_matches 0 none
    if best_similarity ≥ d.similarity_threshold then
      match best_match with
      | none => Except.error "TypeError: NoneType object is not subscriptable"
      | some (hid, wpid) =>
        pure (some { is_duplicate := true, reason := some "semantic_similarity_title",
                     similar_to := some hid, wp_post_id := some wpid,
                     similarity_score := some best_similarity })
    else
      pure none

/-- `Deduplicator.check_duplicate`.  The `_body` argument is accepted but, as
in the source, never used.  The three sqlite lookups become list searches in
rowid order (`fetchone` = first match, `fetchall` = all matches). -/
def Deduplicator.check_duplicate {E : Type} (d : Deduplicator E) (store : HashStore)
    (canonical_url title : String) (_body : Option String) : DupDecision :=
  let normalized_title := normalize_title title
  let title_hash := d.hash normalized_title
  let combined := canonical_url ++ "|" ++ normalized_title
  let hash_id := d.hash combined
  match store.find? (fun r => r.hash_id == hash_id) with
  | some exact_match =>
    { is_duplicate := true, reason := some "exact_hash_match",
      similar_to := some exact_match.hash_id, wp_post_id := some exact_match.wp_post_id,
      similarity_score := some 1 }
  | none =>
    match store.find? (fun r => r.canonical_url == canonical_url) with
    | some url_match =>
      { is_duplicate := true, reason := some "same_canonical_url",
        similar_to := some url_match.hash_id, wp_post_id := some url_match.wp_post_id,
        similarity_score := some 1 }
    | none =>
      let title_matches := store.filter (fun r => r.title_hash == title_hash)
      let semantic : Option DupDecision :=
        if title_matches.isEmpty then none
        else
          match semanticCheck d normalized_title title_matches with
          | Except.error _ => none
          | Except.ok r => r
      match semantic with
      | some dec => dec
      | none =>
        { is_duplicate := false, reason := none, similar_to := none,
          wp_post_id := none, similarity_score := none }

/-- `Deduplicator.register_article`.  `now` models `datetime.now().isoformat()`.
`INSERT OR REPLACE` on the primary key `hash_id` deletes any row with the same
key and appends the new row (fresh rowid).  Returns the new store and the
returned `hash_id`.  Python's `if body` is falsy for both `None` and `""`. -/
def Deduplicator.register_article {E : Type} (d : Deduplicator E) (store : HashStore)
    (now : String) (canonical_url title : String) (body : Option String)
    (wp_post_id : Option Int) : HashStore × String :=
  let normalized_title := normalize_title title
  let title_hash := d.hash normalized_title
  let body_hash : Option String :=
    match body with
    | some b => if b = "" then none else some (d.hash b)
    | none => none
  let combined := canonical_url ++ "|" ++ normalized_title
  let hash_id := d.hash combined
  let row : HashRow :=
    { hash_id := hash_id, canonical_url := canonical_url,
      normalized_title := normalized_title, title_hash := title_hash,
      body_hash := body_hash, created_at := now, wp_post_id := wp_post_id }
  (store.filter (fun r => r.hash_id != hash_id) ++ [row], hash_id)

/-! ### Quality gates (`src/quality_gates.py`) -/

/-- The dict produced by `src/rewrite.py` as consumed by the quality gates
(`rewritten_data.get(...)` fields). -/
structure Rewritten where
  headline : String
  lead : String
  body_markdown : String
  word_count : Nat
deriving Repr, DecidableEq

/-- The dict produced by `src/extract_article.py` as consumed by the pipeline
and the quality gates. -/
structure Extracted where
  url : String
  canonical_url : String
  title : String
  text : String
deriving Repr, DecidableEq

/-- The `QualityGates` object.  `sim` models the embedding model:
`sim a b` is `float(np.dot(model.encode(a), model.encode(b)))`, with
`Except.error` modelling a raised exception (model load or encode failure). -/
structure QualityGates where
  sim : String → String → Except String ℚ
  similarity_threshold : ℚ
  min_length : Nat
  max_length : Nat

/-- `QualityGates._check_similarity`: truncate both texts to 2000 characters,
compare embeddings; on any exception return `(False, 0.0)` (fail-open). -/
def QualityGates.check_similarity (g : QualityGates)
    (original_text rewritten_text : String) : Bool × ℚ :=
  match g.sim (pyTake 2000 original_text) (pyTake 2000 rewritten_text) with
  | Except.ok similarity => (decide (similarity ≥ g.similarity_threshold), similarity)
  | Except.error _ => (false, 0)

/-- The five entries of `dangerous_patterns` (each is a literal string searched
case-insensitively; none contains a regex metacharacter). -/
def dangerous_patterns : List String :=
  ["<script", "<iframe", "javascript:", "onclick=", "onerror="]

/-- `QualityGates._check_sanity`.  Python's `len(words)*0.1` float threshold is
modelled exactly as `words.length` against `10 * max_freq`. -/
def QualityGates.check_sanity (g : QualityGates) (rw : Rewritten) : List String :=
  let body := rw.body_markdown
  let headline := rw.headline
  let lead := rw.lead
  let word_count := rw.word_count
  let lengthIssues :=
    (if word_count < g.min_length then
      ["Articolo troppo corto: " ++ toString word_count ++ " parole (min: " ++
        toString g.min_length ++ ")"] else []) ++
    (if word_count > g.max_length then
      ["Articolo troppo lungo: " ++ toString word_count ++ " parole (max: " ++
        toString g.max_length ++ ")"] else [])
  let presenceIssues :=
    (if body = "" ∨ (pyStrip body.toList).length < 100 then
      ["Corpo articolo vuoto o troppo corto"] else []) ++
    (if headline = "" ∨ (pyStrip headline.toList).length < 10 then
      ["Headline vuota o troppo corta"] else []) ++
    (if lead = "" ∨ (pyStrip lead.toList).length < 20 then
      ["Lead vuoto o troppo corto"] else [])
  let words := pySplitWs (body.toList.map Char.toLower)
  let longWords := words.filter (fun w => w.length > 4)
  let max_freq := (longWords.map (fun w => longWords.count w)).foldr max 0
  let repetitionIssues :=
    if words.length > 0 ∧ 10 * max_freq > words.length then
      ["Ripetizioni eccessive nel contenuto"] else []
  let dangerIssues := dangerous_patterns.filterMap fun pat =>
    if pyContains (pyLower body) pat then
      some ("Contenuto contiene pattern pericoloso: " ++ pat)
    else none
  lengthIssues ++ presenceIssues ++ repetitionIssues ++ dangerIssues

/-- `self.risk_keywords["high"]`. -/
def high_risk_keywords : List String :=
  ["diffamazione", "calunnia", "hate speech", "incitamento",
   "dati sensibili", "codice fiscale", "numero carta", "password"]

/-- `self.risk_keywords["medium"]`. -/
def medium_risk_keywords : List String :=
  ["gossip", "scandalo", "polemica", "controversia"]

/-- Loop body of the high-risk keyword scan: on a hit, append an issue and set
`risk_level = "high"`.  (All keywords are already lowercase, so
`keyword.lower()` is the keyword itself.) -/
def kwStepHigh (combined : String) (acc : List String × String) (kw : String) :
    List String × String :=
  if pyContains combined kw then
    (acc.1 ++ ["Contenuto ad alto rischio: keyword \x27" ++ kw ++ "\x27 trovata"], "high")
  else acc

/-- Loop body of the medium-risk keyword scan: on a hit, append an issue and
raise `risk_level` from `"low"` to `"medium"` (leaving it otherwise). -/
def kwStepMedium (combined : String) (acc : List String × String) (kw : String) :
    List String × String :=
  if pyContains combined kw then
    (acc.1 ++ ["Contenuto a medio rischio: keyword \x27" ++ kw ++ "\x27 trovata"],
     if acc.2 = "low" then "medium" else acc.2)
  else acc

/-- Word character for Python's `\b` boundary (`\w`, ASCII fragment). -/
def isWordChar (c : Char) : Bool :=
  c.isAlphanum || c = '_'

/-- Tokens of the tiny regex fragment used by `sensitive_patterns`:
a character class repeated a fixed number of times, an optional single
character, and the `\b` word boundary. -/
inductive RTok
  | cls (p : Char → Bool) (n : Nat)
  | opt (p : Char → Bool)
  | bound

/-- Whether `\b` matches between the previous character (`none` = string
start) and the rest of the input (`[]` = string end). -/
def boundaryOk (prev : Option Char) (rest : List Char) : Bool :=
  (match prev with
   | none => false
   | some c => isWordChar c) !=
  (match rest with
   | [] => false
   | c :: _ => isWordChar c)

/-- Consume exactly `n` characters satisfying `p`; return the remainder and
the new previous character. -/
def consumeCls (p : Char → Bool) : Nat → List Char → Option Char →
    Option (List Char × Option Char)
  | 0, cs, prev => some (cs, prev)
  | _ + 1, [], _ => none
  | n + 1, c :: cs, _ => if p c then consumeCls p n cs (some c) else none

/-- Match a token list at the current position (anchored), with backtracking
for optional tokens (`?` is greedy: try consuming first). -/
def matchToks : List RTok → List Char → Option Char → Bool
  | [], _, _ => true
  | RTok.bound :: ts, cs, prev => boundaryOk prev cs && matchToks ts cs prev
  | RTok.cls p n :: ts, cs, prev =>
    match consumeCls p n cs prev with
    | none => false
    | some (rest, prev') => matchToks ts rest prev'
  | RTok.opt p :: ts, cs, prev =>
    match cs with
    | [] => matchToks ts [] prev
    | c :: rest =>
      if p c then matchToks ts rest (some c) || matchToks ts (c :: rest) prev
      else matchToks ts (c :: rest) prev

/-- `re.search`: try the anchored match at every start position. -/
def reSearch (ts : List RTok) : List Char → Option Char → Bool
  | cs, prev =>
    matchToks ts cs prev ||
    (match cs with
     | [] => false
     | c :: rest => reSearch ts rest (some c))

/-- The three `sensitive_patterns` regexes, as (source text, matcher) pairs.
The source texts appear verbatim in the issue strings. -/
def sensitive_patterns : List (String × (String → Bool)) :=
  [("\\b\\d\x7b16\x7d\\b",
    fun s => reSearch [RTok.bound, RTok.cls Char.isDigit 16, RTok.bound] s.toList none),
   ("\\b[A-Z]\x7b6\x7d\\d\x7b2\x7d[A-Z]\\d\x7b2\x7d[A-Z]\\d\x7b3\x7d[A-Z]\\b",
    fun s => reSearch [RTok.bound, RTok.cls (fun c => 'A' ≤ c && c ≤ 'Z') 6,
      RTok.cls Char.isDigit 2, RTok.cls (fun c => 'A' ≤ c && c ≤ 'Z') 1,
      RTok.cls Char.isDigit 2, RTok.cls (fun c => 'A' ≤ c && c ≤ 'Z') 1,
      RTok.cls Char.isDigit 3, RTok.cls (fun c => 'A' ≤ c && c ≤ 'Z') 1,
      RTok.bound] s.toList none),
   ("\\b\\d\x7b4\x7d\\s?\\d\x7b4\x7d\\s?\\d\x7b4\x7d\\s?\\d\x7b4\x7d\\b",
    fun s => reSearch [RTok.bound, RTok.cls Char.isDigit 4, RTok.opt pyIsSpace,
      RTok.cls Char.isDigit 4, RTok.opt pyIsSpace, RTok.cls Char.isDigit 4,
      RTok.opt pyIsSpace, RTok.cls Char.isDigit 4, RTok.bound] s.toList none)]

/-- Loop body of the sensitive-data pattern scan: on a hit, append an issue
and force `risk_level = "high"`. -/
def patStep (combined : String) (acc : List String × String)
    (pat : String × (String → Bool)) : List String × String :=
  if pat.2 combined then
    (acc.1 ++ ["Dati sensibili rilevati: pattern " ++ pat.1], "high")
  else acc

/-- The three scanning loops of `_check_policy` over the combined text,
threading `(issues, risk_level)`: high-risk keywords from `(0 issues, "low")`,
then (only if not already `"high"`) medium-risk keywords, then the
sensitive-data patterns. -/
def policyPipeline (combined : String) : List String × String :=
  let afterHigh := high_risk_keywords.foldl (kwStepHigh combined) ([], "low")
  let afterMedium :=
    if afterHigh.2 ≠ "high" then
      medium_risk_keywords.foldl (kwStepMedium combined) afterHigh
    else afterHigh
  sensitive_patterns.foldl (patStep combined) afterMedium

/-- `QualityGates._check_policy`: returns `(risk_level, issues)`. -/
def QualityGates.check_policy (rw : Rewritten) : String × List String :=
  let body := pyLower rw.body_markdown
  let headline := pyLower rw.headline
  let lead := pyLower rw.lead
  let combined := headline ++ " " ++ lead ++ " " ++ body
  let afterPatterns := policyPipeline combined
  (afterPatterns.2, afterPatterns.1)

/-- The dict returned by `QualityGates.check` (the spec's QualityVerdict;
the code's key `ok` is the spec's `passed`). -/
structure QualityResult where
  ok : Bool
  issues : List String
  risk_level : String
  similarity_score : ℚ
  needs_review : Bool
deriving Repr, DecidableEq

/-- `QualityGates.check`: run the three gates, merge the issues, and derive
`ok` and `needs_review`.  (The `:.2f` formatting inside the similarity issue
string is abstracted by `toString`.) -/
def QualityGates.check (g : QualityGates) (original : Extracted) (rw : Rewritten) :
    QualityResult :=
  let simRes := g.check_similarity original.text rw.body_markdown
  let is_too_similar := simRes.1
  let similarity_score := simRes.2
  let simIssues :=
    if is_too_similar then
      ["Testo troppo simile all\x27originale (similarity: " ++ toString similarity_score ++ ")"]
    else []
  let sanity_issues := g.check_sanity rw
  let policy := QualityGates.check_policy rw
  let risk_level := policy.1
  let all_issues := simIssues ++ sanity_issues ++ policy.2
  let ok := decide (all_issues.length = 0) && decide (risk_level ≠ "high")
  let needs_review :=
    decide (risk_level = "medium") || decide (risk_level = "high") ||
    is_too_similar || decide (sanity_issues.length > 0)
  { ok := ok, issues := all_issues, risk_level := risk_level,
    similarity_score := similarity_score, needs_review := needs_review }

/-! ### Article / run orchestrator (`src/pipeline.py`)

`process_article` is modelled as a function of the collaborator behaviours:
raising collaborators return `Except.error`.  `time.time()` readings are
drawn from an explicit list of clock values (`tick`).  The model additionally
returns the updated fingerprint store and the ordered list of collaborator
calls made (instrumentation used to state "step X is never invoked"). -/

/-- One candidate from `fetch_sources` as consumed by the pipeline. -/
structure Candidate where
  url : String
  source : Option String
  title : String
deriving Repr, DecidableEq

/-- The dict returned by `NewsPipeline.process_article`.  `timing` is the
Python dict in insertion order. -/
structure PipelineResult where
  status : String
  reason : Option String
  post_id : Option Int
  timing : List (String × ℚ)
deriving Repr, DecidableEq

/-- `time.time()`: pop the next reading (0 once the list is exhausted). -/
def tick : List ℚ → ℚ × List ℚ
  | [] => (0, [])
  | t :: ts => (t, ts)

/-- Python dict assignment `m[k] = v`: overwrite in place if the key exists,
else append. -/
def setKey (m : List (String × ℚ)) (k : String) (v : ℚ) : List (String × ℚ) :=
  if m.any (fun p => p.1 == k) then
    m.map (fun p => if p.1 == k then (k, v) else p)
  else m ++ [(k, v)]

/-- Whether a Python dict (as an insertion-ordered pair list) holds a key. -/
def hasKey (m : List (String × ℚ)) (k : String) : Bool :=
  m.any (fun p => p.1 == k)

/-- The collaborators `NewsPipeline` drives.  `wp_client` is `none` in
dry-run / unconfigured mode; when present, `Except.error` models a raised
exception and `Except.ok none` a creation call that returned no id. -/
structure Collaborators (E : Type) where
  dedup : Deduplicator E
  gates : QualityGates
  extract : String → Option String → Except String Extracted
  rewrite : Extracted → Except String Rewritten
  wp_client : Option (Rewritten → Extracted → QualityResult → Except String (Option Int))

/-- The `except Exception` handler at the bottom of `process_article`:
records `timing["total"]` and returns a `failed` outcome with the exception
text as reason; the store is left as it was. -/
def exceptHandler (e : String) (timing : List (String × ℚ)) (start_time : ℚ)
    (clock : List ℚ) (store : HashStore) (calls : List String) :
    PipelineResult × HashStore × List String :=
  let r := tick clock
  ({ status := "failed", reason := some e, post_id := none,
     timing := setKey timing "total" (r.1 - start_time) }, store, calls)

/-- `NewsPipeline.process_article`: extract → content check → dedupe →
rewrite → quality gates → publish → register, with the early returns of the
source.  `nowIso` models `datetime.now().isoformat()` used by
`register_article`.  Python's `if not post_id` is falsy for `None` and `0`. -/
def process_article {E : Type} (c : Collaborators E) (store : HashStore)
    (clock₀ : List ℚ) (nowIso : String) (cand : Candidate) :
    PipelineResult × HashStore × List String :=
  let url := cand.url
  let s0 := tick clock₀
  let start_time := s0.1
  let e0 := tick s0.2
  match c.extract url cand.source with
  | Except.error e => exceptHandler e [] start_time e0.2 store ["extract"]
  | Except.ok extracted =>
    let e1 := tick e0.2
    let timing := setKey [] "extract" (e1.1 - e0.1)
    let calls := ["extract"]
    let text := pyStripStr extracted.text
    let title := pyStripStr extracted.title
    if text = "" ∨ text.toList.length < 100 then
      ({ status := "skipped",
         reason := some ("empty_content: " ++ toString text.toList.length ++ " caratteri"),
         post_id := none, timing := timing }, store, calls)
    else if title = "" ∨ title.toList.length < 10 then
      ({ status := "skipped",
         reason := some ("empty_title: " ++ toString title.toList.length ++ " caratteri"),
         post_id := none, timing := timing }, store, calls)
    else
      let d0 := tick e1.2
      let dedupe_result :=
        c.dedup.check_duplicate store extracted.canonical_url extracted.title
          (some extracted.text)
      let calls := calls ++ ["check_duplicate"]
      let d1 := tick d0.2
      let timing := setKey timing "dedupe" (d1.1 - d0.1)
      if dedupe_result.is_duplicate then
        ({ status := "skipped",
           reason := some ("duplicate: " ++ optStr dedupe_result.reason),
           post_id := none, timing := timing }, store, calls)
      else
        let r0 := tick d1.2
        match c.rewrite extracted with
        | Except.error e =>
          exceptHandler e timing start_time r0.2 store (calls ++ ["rewrite"])
        | Except.ok rewritten =>
          let calls := calls ++ ["rewrite"]
          let r1 := tick r0.2
          let timing := setKey timing "rewrite" (r1.1 - r0.1)
          let q0 := tick r1.2
          let quality_result := c.gates.check extracted rewritten
          let calls := calls ++ ["quality_check"]
          let q1 := tick q0.2
          let timing := setKey timing "quality" (q1.1 - q0.1)
          let calls := calls ++ ["save_rewritten"]
          if quality_result.ok = false ∨ quality_result.risk_level = "high" then
            ({ status := "skipped",
               reason := some ("quality_gate_failed: " ++
                 String.intercalate ", " quality_result.issues),
               post_id := none, timing := timing }, store, calls)
          else
            match c.wp_client with
            | none =>
              ({ status := "skipped", reason := some "wp_client_not_configured",
                 post_id := none, timing := timing }, store, calls)
            | some create_post =>
              let w0 := tick q1.2
              match create_post rewritten extracted quality_result with
              | Except.error e =>
                exceptHandler e timing start_time w0.2 store (calls ++ ["create_post"])
              | Except.ok post_id? =>
                let calls := calls ++ ["create_post"]
                let w1 := tick w0.2
                let timing := setKey timing "wp_post" (w1.1 - w0.1)
                let falsy :=
                  match post_id? with
                  | none => true
                  | some pid => pid == 0
                if falsy then
                  ({ status := "failed", reason := some "wp_post_creation_failed",
                     post_id := none, timing := timing }, store, calls)
                else
                  let pid := post_id?.getD 0
                  let reg := c.dedup.register_article store nowIso
                    extracted.canonical_url extracted.title (some extracted.text)
                    (some pid)
                  let calls := calls ++ ["register_article"]
                  let t1 := tick w1.2
                  let timing := setKey timing "total" (t1.1 - start_time)
                  ({ status := "created", reason := none, post_id := some pid,
                     timing := timing }, reg.1, calls)

/-- The in-flight-article entry of the pipeline status (`stats["current_article"]`). -/
structure CurrentArticle where
  url : String
  title : String
  number : Nat
  total : Nat
deriving Repr, DecidableEq

/-- The `stats` dict of `NewsPipeline.run` (the spec's RunState). -/
structure RunStats where
  total_candidates : Nat
  processed : Nat
  created : Nat
  skipped : Nat
  failed : Nat
  run_id : String
  status : String
  current_step : String
  current_article : Option CurrentArticle
  started_at : String
  completed_at : Option String
deriving Repr, DecidableEq

/-- The run report persisted by `logger.generate_report(run_id, stats)`. -/
structure RunReport where
  run_id : String
  stats : RunStats
deriving Repr, DecidableEq

/-- The `if/elif` chain of `NewsPipeline.run` that bumps the outcome counter
matching the article's status. -/
def bumpCounters (stats : RunStats) (status : String) : RunStats :=
  if status = "created" then { stats with created := stats.created + 1 }
  else if status = "skipped" then { stats with skipped := stats.skipped + 1 }
  else if status = "failed" then { stats with failed := stats.failed + 1 }
  else stats

/-- The `for i, candidate in enumerate(candidates, 1)` loop of
`NewsPipeline.run`.  `clocks i` is the clock stream handed to the `i`-th
article; `interrupt = some k` models a `KeyboardInterrupt` arriving after `k`
completed iterations (the loop stops, the `finally:` block still runs). -/
def runLoop {E : Type} (c : Collaborators E) (nowIso : String) (clocks : Nat → List ℚ)
    (total : Nat) : List Candidate → Nat → Option Nat → HashStore → RunStats →
    HashStore × RunStats
  | [], _, _, store, stats => (store, stats)
  | cand :: rest, i, interrupt, store, stats =>
    if interrupt = some 0 then (store, stats)
    else
      let inFlight : CurrentArticle :=
        { url := cand.url, title := pyTake 80 cand.title, number := i, total := total }
      let stats := { stats with current_article := some inFlight }
      let pr := process_article c store (clocks i) nowIso cand
      let stats := bumpCounters { stats with processed := stats.processed + 1 } pr.1.status
      runLoop c nowIso clocks total rest (i + 1) (interrupt.map (· - 1)) pr.2.1 stats

/-- `NewsPipeline.run`: initialize the stats record, fetch candidates
(`fetchResult`; `Except.error` models a raised fetch exception, caught by the
outer `except`), iterate the loop, and in `finally:` mark the run completed
and persist the report.  Returns the final store, the final stats and the
report. -/
def runModel {E : Type} (c : Collaborators E) (run_id startedAt nowIso completedAt : String)
    (clocks : Nat → List ℚ) (fetchResult : Except String (List Candidate))
    (interrupt : Option Nat) (store : HashStore) :
    HashStore × RunStats × RunReport :=
  let stats0 : RunStats :=
    { total_candidates := 0, processed := 0, created := 0, skipped := 0, failed := 0,
      run_id := run_id, status := "running", current_step := "fetching",
      current_article := none, started_at := startedAt, completed_at := none }
  let afterTry :=
    match fetchResult with
    | Except.error _ => (store, stats0)
    | Except.ok candidates =>
      let stats1 := { stats0 with total_candidates := candidates.length
                                  current_step := "processing" }
      runLoop c nowIso clocks candidates.length candidates 1 interrupt store stats1
  let final := { afterTry.2 with
                 status := "completed"
                 current_step := "completed"
                 current_article := none
                 completed_at := some completedAt }
  (afterTry.1, final, { run_id := run_id, stats := final })

/-! ### Continuous monitor (`src/monitor.py`)

Only the `start` / `stop` state transitions are modelled.  `activeLoops`
counts the `_monitor_loop` threads spawned and not told to stop (the
instrumentation behind "exactly one active loop"); `warnings` records the
`logger.log_warning` calls. -/

/-- The `FeedMonitor` state relevant to start/stop. -/
structure FeedMonitor where
  is_running : Bool
  stats_running : Bool
  started_at : Option String
  activeLoops : Nat
  warnings : List String
deriving Repr, DecidableEq

/-- The state after `FeedMonitor.__init__`. -/
def FeedMonitor.init : FeedMonitor :=
  { is_running := false, stats_running := false, started_at := none,
    activeLoops := 0, warnings := [] }

/-- `FeedMonitor.start`: warn and return if already running; otherwise set the
flags, stamp `started_at` and spawn the monitor thread. -/
def FeedMonitor.start (m : FeedMonitor) (now : String) : FeedMonitor :=
  if m.is_running then
    { m with warnings := m.warnings ++ ["Monitor già in esecuzione"] }
  else
    { m with is_running := true, stats_running := true, started_at := some now
             activeLoops := m.activeLoops + 1 }

/-- `FeedMonitor.stop`: warn and return if not running; otherwise clear the
flags (the loop thread then exits at its next `is_running` check). -/
def FeedMonitor.stop (m : FeedMonitor) : FeedMonitor :=
  if m.is_running = false then
    { m with warnings := m.warnings ++ ["Monitor non in esecuzione"] }
  else
    { m with is_running := false, stats_running := false }

/-! ### Concrete instances used by the closed witness theorems -/

/-- A deduplicator whose embedding oracle raises on every call; the abstract
digest is instantiated with the identity function. -/
def dFailingOracle : Deduplicator Unit :=
  { hash := fun s => s, embed := fun _ => Except.error "boom",
    cosine := fun _ _ => 0, similarity_threshold := 85 / 100 }

/-- A stored row that collides with the title `"Hello There"` on `title_hash`
only: different `hash_id`, different `canonical_url`. -/
def rowTitleCollision : HashRow :=
  { hash_id := "other-id", canonical_url := "https://other.example/a",
    normalized_title := "hello  there", title_hash := "hello there",
    body_hash := none, created_at := "t0", wp_post_id := none }

/-- Quality gates whose similarity oracle raises (similarity then defaults to
0.0 and the similarity gate cannot fire). -/
def gFailSim : QualityGates :=
  { sim := fun _ _ => Except.error "model load failed",
    similarity_threshold := 85 / 100, min_length := 200, max_length := 2000 }

/-- An original document for the quality-gate witnesses. -/
def extractedFix : Extracted :=
  { url := "https://site.example/x", canonical_url := "https://site.example/x",
    title := "Un titolo di articolo", text := "Testo originale di prova." }

/-- A rewritten document that is far too short (50 words claimed, short body),
so the sanity gate reports issues. -/
def rewrittenShort : Rewritten :=
  { headline := "Titolo abbastanza lungo", lead := "Un lead sufficientemente lungo qui",
    body_markdown := "Body ragionevole ma breve.", word_count := 50 }

/-- Extraction result with a long-enough body (120 characters) but a
5-character title. -/
def extractedShortTitle : Extracted :=
  { url := "https://site.example/short", canonical_url := "https://site.example/short",
    title := "Breve", text := String.mk (List.replicate 120 'a') }

/-- A candidate for the pipeline witnesses. -/
def candFix : Candidate :=
  { url := "https://feed.example/item1", source := some "feed", title := "Qualcosa" }

/-- Collaborators whose extractor always yields `extractedShortTitle`. -/
def collabShortTitle : Collaborators Unit :=
  { dedup := dFailingOracle, gates := gFailSim,
    extract := fun _ _ => Except.ok extractedShortTitle,
    rewrite := fun _ => Except.ok rewrittenShort,
    wp_client := none }

/-- Three candidates for the run-orchestrator witness. -/
def candU1 : Candidate := { url := "u1", source := none, title := "t1" }

/-- Second candidate (its extraction will raise). -/
def candU2 : Candidate := { url := "u2", source := none, title := "t2" }

/-- Third candidate. -/
def candU3 : Candidate := { url := "u3", source := none, title := "t3" }

/-- Collaborators whose extractor raises exactly on `"u2"` and otherwise
yields `extractedShortTitle` (so the other articles are skipped, not failed). -/
def collabFailU2 : Collaborators Unit :=
  { dedup := dFailingOracle, gates := gFailSim,
    extract := fun u _ =>
      if u = "u2" then Except.error "boom" else Except.ok extractedShortTitle,
    rewrite := fun _ => Except.ok rewrittenShort,
    wp_client := none }

/-- Extraction result that passes the content check (150-character body,
29-character title). -/
def extractedGood : Extracted :=
  { url := "https://site.example/good", canonical_url := "https://site.example/good",
    title := "Un titolo adeguatamente lungo", text := String.mk (List.replicate 150 'a') }

/-- A rewritten document that passes every quality gate: in-range word count,
long-enough headline/lead/body, no repetition, no dangerous markup, no risk
keywords, no sensitive-data shapes. -/
def rewrittenGood : Rewritten :=
  { headline := "Titolo sufficientemente lungo",
    lead := "Questo e un lead adeguatamente lungo per i controlli.",
    body_markdown := "Il testo che segue parla di cose varie e non contiene parole lunghe ripetute spesso, quindi passa ogni controllo di base senza problemi evidenti.",
    word_count := 300 }

/-- Collaborators whose rewriter raises after a successful extraction. -/
def collabRewriteFail : Collaborators Unit :=
  { dedup := dFailingOracle, gates := gFailSim,
    extract := fun _ _ => Except.ok extractedGood,
    rewrite := fun _ => Except.error "llm failure",
    wp_client := none }

/-- Collaborators whose publish call succeeds but returns no post id, so the
article reaches the `wp_post_creation_failed` branch. -/
def collabWpNoId : Collaborators Unit :=
  { dedup := dFailingOracle, gates := gFailSim,
    extract := fun _ _ => Except.ok extractedGood,
    rewrite := fun _ => Except.ok rewrittenGood,
    wp_client := some (fun _ _ _ => Except.ok none) }

/-! ### Helper lemmas -/

/-- Searching for `hash_id = h` in a store purged of `h` and re-extended with a
row keyed `h` finds exactly that row. -/
theorem find?_purge_append (h : String) (store : HashStore) (row : HashRow)
    (hrow : row.hash_id = h) :
    ((store.filter (fun r => r.hash_id != h)) ++ [row]).find?
      (fun r => r.hash_id == h) = some row := by
  rw [List.find?_append]
  have h1 : (store.filter (fun r => r.hash_id != h)).find?
      (fun r => r.hash_id == h) = none := by
    rw [List.find?_eq_none]
    intro x hx
    have hmem := (List.mem_filter.mp hx).2
    simp only [bne_iff_ne, ne_eq] at hmem
    simp [hmem]
  rw [h1]
  simp [List.find?, hrow]

/-- Purging key `h` really removes every row keyed `h`. -/
theorem filter_eq_filter_ne (h : String) (l : HashStore) :
    (l.filter (fun r => r.hash_id != h)).filter (fun r => r.hash_id == h) = [] := by
  rw [List.filter_filter, List.filter_eq_nil_iff]
  intro a _
  simp only [Bool.and_eq_true, beq_iff_eq, bne_iff_ne, ne_eq]
  rintro ⟨h1, h2⟩
  exact h2 h1

/-! ### C1 and C2: exact rediscovery and idempotent registration -/

/-- C1: a `(canonical_url, title)` pair registered via `register_article` and
then passed unchanged to `check_duplicate` yields `is_duplicate = true`,
reason `exact_hash_match` (the spec's `exact_match` branch) and similarity
score 1.0. -/
theorem c1_registered_pair_is_exact_match {E : Type} (d : Deduplicator E)
    (store : HashStore) (now canonical_url title : String) (body : Option String)
    (wp : Option Int) :
    let reg := d.register_article store now canonical_url title body wp
    let dec := d.check_duplicate reg.1 canonical_url title none
    dec.is_duplicate = true ∧ dec.reason = some "exact_hash_match" ∧
      dec.similarity_score = some 1 := by
  intro reg dec
  have hfind := find?_purge_append
    (d.hash (canonical_url ++ "|" ++ normalize_title title)) store
    { hash_id := d.hash (canonical_url ++ "|" ++ normalize_title title)
      canonical_url := canonical_url
      normalized_title := normalize_title title
      title_hash := d.hash (normalize_title title)
      body_hash := match body with
        | some b => if b = "" then none else some (d.hash b)
        | none => none
      created_at := now
      wp_post_id := wp } rfl
  show (Deduplicator.check_duplicate d reg.1 canonical_url title none).is_duplicate = true ∧ _
  simp only [Deduplicator.check_duplicate, Deduplicator.register_article, reg, dec]
  rw [hfind]
  exact ⟨rfl, rfl, rfl⟩

/-- C2: registering the same `(canonical_url, title)` pair twice returns the
same fingerprint id both times, and afterwards the store holds exactly one
record under that id — the one written by the second call (last write wins;
`now₂`, `body₂`, `wp₂` are the second call's data). -/
theorem c2_register_article_idempotent {E : Type} (d : Deduplicator E)
    (store : HashStore) (now₁ now₂ canonical_url title : String)
    (body₁ body₂ : Option String) (wp₁ wp₂ : Option Int) :
    let reg₁ := d.register_article store now₁ canonical_url title body₁ wp₁
    let reg₂ := d.register_article reg₁.1 now₂ canonical_url title body₂ wp₂
    reg₁.2 = reg₂.2 ∧
    reg₂.1.filter (fun r => r.hash_id == reg₁.2) =
      [{ hash_id := reg₁.2
         canonical_url := canonical_url
         normalized_title := normalize_title title
         title_hash := d.hash (normalize_title title)
         body_hash := match body₂ with
           | some b => if b = "" then none else some (d.hash b)
           | none => none
         created_at := now₂
         wp_post_id := wp₂ }] := by
  intro reg₁ reg₂
  refine ⟨rfl, ?_⟩
  show (Deduplicator.register_article d reg₁.1 now₂ canonical_url title body₂ wp₂).1.filter _ = _
  simp only [Deduplicator.register_article, reg₁, reg₂]
  rw [List.filter_append, filter_eq_filter_ne]
  simp [List.filter]

/-- C10: the fingerprint id hashes `canonical_url + "|" + normalized_title`,
and `"|"` may occur inside the inputs: the distinct articles
`("a|b", "c")` and `("a", "b|c")` get the same fingerprint id from both
`register_article` and `check_duplicate` (the second is reported as an
`exact_hash_match` of the first), so registering both collapses them to a
single record. -/
theorem c10_pipe_separator_collision {E : Type} (d : Deduplicator E)
    (store : HashStore) (now₁ now₂ : String) (body₁ body₂ : Option String)
    (wp₁ wp₂ : Option Int) :
    (("a|b", "c") ≠ (("a", "b|c") : String × String)) ∧
    (d.register_article store now₁ "a|b" "c" body₁ wp₁).2 =
      (d.register_article store now₁ "a" "b|c" body₁ wp₁).2 ∧
    (let reg := d.register_article store now₁ "a|b" "c" body₁ wp₁
     (d.check_duplicate reg.1 "a" "b|c" none).is_duplicate = true ∧
     (d.check_duplicate reg.1 "a" "b|c" none).reason = some "exact_hash_match") ∧
    (let reg₁ := d.register_article store now₁ "a|b" "c" body₁ wp₁
     let reg₂ := d.register_article reg₁.1 now₂ "a" "b|c" body₂ wp₂
     reg₂.1.filter (fun r => r.hash_id == reg₁.2) =
       [{ hash_id := reg₁.2
          canonical_url := "a"
          normalized_title := "b|c"
          title_hash := d.hash "b|c"
          body_hash := match body₂ with
            | some b => if b = "" then none else some (d.hash b)
            | none => none
          created_at := now₂
          wp_post_id := wp₂ }]) := by
  have hn1 : normalize_title "c" = "c" := by decide
  have hn2 : normalize_title "b|c" = "b|c" := by decide
  have hcomb : ("a|b" ++ "|" ++ normalize_title "c" : String) =
      ("a" ++ "|" ++ normalize_title "b|c" : String) := by decide
  refine ⟨by decide, ?_, ?_, ?_⟩
  · show d.hash ("a|b" ++ "|" ++ normalize_title "c") =
        d.hash ("a" ++ "|" ++ normalize_title "b|c")
    rw [hcomb]
  · intro reg
    have hfind := find?_purge_append
      (d.hash ("a|b" ++ "|" ++ normalize_title "c")) store
      { hash_id := d.hash ("a|b" ++ "|" ++ normalize_title "c")
        canonical_url := "a|b"
        normalized_title := normalize_title "c"
        title_hash := d.hash (normalize_title "c")
        body_hash := match body₁ with
          | some b => if b = "" then none else some (d.hash b)
          | none => none
        created_at := now₁
        wp_post_id := wp₁ } rfl
    constructor
    · show (Deduplicator.check_duplicate d reg.1 "a" "b|c" none).is_duplicate = true
      simp only [Deduplicator.check_duplicate, Deduplicator.register_article, reg]
      rw [← hcomb, hfind]
    · show (Deduplicator.check_duplicate d reg.1 "a" "b|c" none).reason =
        some "exact_hash_match"
      simp only [Deduplicator.check_duplicate, Deduplicator.register_article, reg]
      rw [← hcomb, hfind]
  · intro reg₁ reg₂
    show (Deduplicator.register_article d reg₁.1 now₂ "a" "b|c" body₂ wp₂).1.filter _ = _
    simp only [Deduplicator.register_article, reg₁, reg₂]
    have hcomb2 : ("a" ++ "|" ++ "b|c" : String) =
        "a|b" ++ "|" ++ normalize_title "c" := by decide
    rw [hn2, hcomb2, List.filter_append, filter_eq_filter_ne]
    simp [List.filter]

/-- If the embedding of the new title reports "model unavailable", the whole
semantic check returns without flagging anything. -/
theorem semanticCheck_embed_unavailable {E : Type} (d : Deduplicator E) (t : String)
    (ms : List HashRow) (h : d.compute_embedding t = Except.ok none) :
    semanticCheck d t ms = Except.ok none := by
  unfold semanticCheck
  rw [h]
  rfl

/-- If the embedding of the new title raises, the whole semantic check raises
(the exception is then caught inside `check_duplicate`). -/
theorem semanticCheck_embed_raises {E : Type} (d : Deduplicator E) (t : String)
    (ms : List HashRow) (msg : String) (h : d.compute_embedding t = Except.error msg) :
    semanticCheck d t ms = Except.error msg := by
  unfold semanticCheck
  rw [h]
  rfl

/-- C3: when the stored records match the new article only by
`title_hash` (no exact-fingerprint row and no canonical-URL row), and the
semantic oracle is unavailable (`_get_model` yields `None`) or raises on every
text it is given, `check_duplicate` returns the not-a-duplicate dictionary:
the title-hash collision alone never flags a duplicate, and the oracle failure
is swallowed (the call returns normally instead of propagating). -/
theorem c3_oracle_failure_not_flagged {E : Type} (d : Deduplicator E)
    (store : HashStore) (canonical_url title : String)
    (hOracle : ∀ t, d.embed t = Except.ok none ∨ ∃ msg, d.embed t = Except.error msg)
    (hNoExact : ∀ r ∈ store,
      r.hash_id ≠ d.hash (canonical_url ++ "|" ++ normalize_title title))
    (hNoUrl : ∀ r ∈ store, r.canonical_url ≠ canonical_url)
    (_hTitleHit : ∃ r ∈ store, r.title_hash = d.hash (normalize_title title)) :
    d.check_duplicate store canonical_url title none =
      { is_duplicate := false, reason := none, similar_to := none,
        wp_post_id := none, similarity_score := none } := by
  have h1 : store.find?
      (fun r => r.hash_id == d.hash (canonical_url ++ "|" ++ normalize_title title)) =
      none := by
    rw [List.find?_eq_none]
    intro x hx
    simpa using hNoExact x hx
  have h2 : store.find? (fun r => r.canonical_url == canonical_url) = none := by
    rw [List.find?_eq_none]
    intro x hx
    simpa using hNoUrl x hx
  have hsem : ∀ ms, semanticCheck d (normalize_title title) ms = Except.ok none ∨
      ∃ msg, semanticCheck d (normalize_title title) ms = Except.error msg := by
    intro ms
    rcases hOracle (if (normalize_title title).toList.length > 1000 then
        pyTake 1000 (normalize_title title) else normalize_title title) with h | ⟨msg, h⟩
    · exact Or.inl (semanticCheck_embed_unavailable d _ ms h)
    · exact Or.inr ⟨msg, semanticCheck_embed_raises d _ ms msg h⟩
  simp only [Deduplicator.check_duplicate, h1, h2]
  rcases hsem (store.filter
      (fun r => r.title_hash == d.hash (normalize_title title))) with h | ⟨msg, h⟩ <;>
    simp [h]

/-- Closed witness for `c3_oracle_failure_not_flagged`: a raising oracle, a
store whose single row matches `"Hello There"` only by `title_hash`, and the
resulting not-a-duplicate verdict. -/
theorem c3_oracle_failure_not_flagged_witness :
    (∀ t, dFailingOracle.embed t = Except.ok none ∨
      ∃ msg, dFailingOracle.embed t = Except.error msg) ∧
    (∀ r ∈ [rowTitleCollision], r.hash_id ≠
      dFailingOracle.hash ("https://new.example/b" ++ "|" ++ normalize_title "Hello There")) ∧
    (∀ r ∈ [rowTitleCollision], r.canonical_url ≠ "https://new.example/b") ∧
    (∃ r ∈ [rowTitleCollision], r.title_hash =
      dFailingOracle.hash (normalize_title "Hello There")) ∧
    (dFailingOracle.check_duplicate [rowTitleCollision] "https://new.example/b"
      "Hello There" none).is_duplicate = false := by
  have h1 : ∀ t, dFailingOracle.embed t = Except.ok none ∨
      ∃ msg, dFailingOracle.embed t = Except.error msg :=
    fun _ => Or.inr ⟨"boom", rfl⟩
  have h2 : ∀ r ∈ [rowTitleCollision], r.hash_id ≠
      dFailingOracle.hash ("https://new.example/b" ++ "|" ++ normalize_title "Hello There") := by
    decide
  have h3 : ∀ r ∈ [rowTitleCollision], r.canonical_url ≠ "https://new.example/b" := by
    decide
  have h4 : ∃ r ∈ [rowTitleCollision], r.title_hash =
      dFailingOracle.hash (normalize_title "Hello There") := by
    decide
  refine ⟨h1, h2, h3, h4, ?_⟩
  rw [c3_oracle_failure_not_flagged dFailingOracle [rowTitleCollision]
    "https://new.example/b" "Hello There" h1 h2 h3 h4]

/-! ### C4 and C9: quality-gate aggregation -/

/-- The high-risk keyword fold leaves the risk unchanged or sets it to
`"high"`. -/
theorem foldl_kwStepHigh_risk (combined : String) (l : List String)
    (acc : List String × String) :
    (l.foldl (kwStepHigh combined) acc).2 = acc.2 ∨
      (l.foldl (kwStepHigh combined) acc).2 = "high" := by
  induction l generalizing acc with
  | nil => exact Or.inl rfl
  | cons kw rest ih =>
    simp only [List.foldl_cons]
    by_cases h : pyContains combined kw
    · rcases ih (kwStepHigh combined acc kw) with h1 | h1
      · rw [h1]
        right
        simp [kwStepHigh, h]
      · exact Or.inr h1
    · rw [show kwStepHigh combined acc kw = acc from by simp [kwStepHigh, h]]
      exact ih acc

/-- The medium-risk keyword fold leaves the risk unchanged or sets it to
`"medium"`. -/
theorem foldl_kwStepMedium_risk (combined : String) (l : List String)
    (acc : List String × String) :
    (l.foldl (kwStepMedium combined) acc).2 = acc.2 ∨
      (l.foldl (kwStepMedium combined) acc).2 = "medium" := by
  induction l generalizing acc with
  | nil => exact Or.inl rfl
  | cons kw rest ih =>
    simp only [List.foldl_cons]
    by_cases h : pyContains combined kw
    · rcases ih (kwStepMedium combined acc kw) with h1 | h1
      · rw [h1]
        by_cases h2 : acc.2 = "low"
        · right
          simp [kwStepMedium, h, h2]
        · left
          simp [kwStepMedium, h, h2]
      · exact Or.inr h1
    · rw [show kwStepMedium combined acc kw = acc from by simp [kwStepMedium, h]]
      exact ih acc

/-- The sensitive-pattern fold leaves the risk unchanged or sets it to
`"high"`. -/
theorem foldl_patStep_risk (combined : String)
    (l : List (String × (String → Bool))) (acc : List String × String) :
    (l.foldl (patStep combined) acc).2 = acc.2 ∨
      (l.foldl (patStep combined) acc).2 = "high" := by
  induction l generalizing acc with
  | nil => exact Or.inl rfl
  | cons pat rest ih =>
    simp only [List.foldl_cons]
    by_cases h : pat.2 combined = true
    · rcases ih (patStep combined acc pat) with h1 | h1
      · rw [h1]
        right
        simp [patStep, h]
      · exact Or.inr h1
    · rw [show patStep combined acc pat = acc from by simp [patStep, h]]
      exact ih acc

/-- If the high-risk fold ends with risk `"low"`, it never fired. -/
theorem foldl_kwStepHigh_low (combined : String) (l : List String)
    (acc : List String × String)
    (h : (l.foldl (kwStepHigh combined) acc).2 = "low") :
    l.foldl (kwStepHigh combined) acc = acc := by
  induction l generalizing acc with
  | nil => rfl
  | cons kw rest ih =>
    simp only [List.foldl_cons] at h ⊢
    by_cases hc : pyContains combined kw
    · exfalso
      have hstep : (kwStepHigh combined acc kw).2 = "high" := by simp [kwStepHigh, hc]
      rcases foldl_kwStepHigh_risk combined rest (kwStepHigh combined acc kw) with h1 | h1
      · rw [h, hstep] at h1
        exact absurd h1 (by decide)
      · rw [h] at h1
        exact absurd h1 (by decide)
    · rw [show kwStepHigh combined acc kw = acc from by simp [kwStepHigh, hc]] at h ⊢
      exact ih acc h

/-- If the medium-risk fold ends with risk `"low"`, it never fired. -/
theorem foldl_kwStepMedium_low (combined : String) (l : List String)
    (acc : List String × String)
    (h : (l.foldl (kwStepMedium combined) acc).2 = "low") :
    l.foldl (kwStepMedium combined) acc = acc := by
  induction l generalizing acc with
  | nil => rfl
  | cons kw rest ih =>
    simp only [List.foldl_cons] at h ⊢
    by_cases hc : pyContains combined kw
    · exfalso
      have hstep : (kwStepMedium combined acc kw).2 ≠ "low" := by
        by_cases h2 : acc.2 = "low" <;> simp [kwStepMedium, hc, h2]
      rcases foldl_kwStepMedium_risk combined rest (kwStepMedium combined acc kw) with h1 | h1
      · rw [h] at h1
        exact hstep h1.symm
      · rw [h] at h1
        exact absurd h1 (by decide)
    · rw [show kwStepMedium combined acc kw = acc from by simp [kwStepMedium, hc]] at h ⊢
      exact ih acc h

/-- If the sensitive-pattern fold ends with risk `"low"`, it never fired. -/
theorem foldl_patStep_low (combined : String)
    (l : List (String × (String → Bool))) (acc : List String × String)
    (h : (l.foldl (patStep combined) acc).2 = "low") :
    l.foldl (patStep combined) acc = acc := by
  induction l generalizing acc with
  | nil => rfl
  | cons pat rest ih =>
    simp only [List.foldl_cons] at h ⊢
    by_cases hc : pat.2 combined = true
    · exfalso
      have hstep : (patStep combined acc pat).2 = "high" := by simp [patStep, hc]
      rcases foldl_patStep_risk combined rest (patStep combined acc pat) with h1 | h1
      · rw [h, hstep] at h1
        exact absurd h1 (by decide)
      · rw [h] at h1
        exact absurd h1 (by decide)
    · rw [show patStep combined acc pat = acc from by simp [patStep, hc]] at h ⊢
      exact ih acc h

/-- The policy pipeline ends with risk `"low"`, `"medium"` or `"high"`. -/
theorem policyPipeline_risk (combined : String) :
    (policyPipeline combined).2 = "low" ∨ (policyPipeline combined).2 = "medium" ∨
    (policyPipeline combined).2 = "high" := by
  simp only [policyPipeline]
  set a1 := high_risk_keywords.foldl (kwStepHigh combined) ([], "low") with ha1
  set a2 := if a1.2 ≠ "high" then medium_risk_keywords.foldl (kwStepMedium combined) a1
    else a1 with ha2
  have h1 : a1.2 = "low" ∨ a1.2 = "high" := by
    rw [ha1]
    exact foldl_kwStepHigh_risk combined _ _
  have h2 : a2.2 = "low" ∨ a2.2 = "medium" ∨ a2.2 = "high" := by
    rw [ha2]
    by_cases hh : a1.2 = "high"
    · rw [if_neg (by simp [hh])]
      exact Or.inr (Or.inr hh)
    · rw [if_pos (by simp [hh])]
      rcases foldl_kwStepMedium_risk combined medium_risk_keywords a1 with h | h
      · rw [h]
        rcases h1 with h1 | h1
        · exact Or.inl h1
        · exact absurd h1 hh
      · exact Or.inr (Or.inl h)
  rcases foldl_patStep_risk combined sensitive_patterns a2 with h | h
  · rw [h]
    exact h2
  · rw [h]
    exact Or.inr (Or.inr rfl)

/-- If the policy pipeline ends `"low"`, no loop ever fired, so it reports no
issues. -/
theorem policyPipeline_low_no_issues (combined : String)
    (h : (policyPipeline combined).2 = "low") : (policyPipeline combined).1 = [] := by
  simp only [policyPipeline] at h ⊢
  set a1 := high_risk_keywords.foldl (kwStepHigh combined) ([], "low") with ha1
  set a2 := if a1.2 ≠ "high" then medium_risk_keywords.foldl (kwStepMedium combined) a1
    else a1 with ha2
  have h3 : sensitive_patterns.foldl (patStep combined) a2 = a2 :=
    foldl_patStep_low combined _ _ h
  rw [h3] at h ⊢
  by_cases hh : a1.2 = "high"
  · rw [ha2, if_neg (by simp [hh])] at h
    rw [hh] at h
    exact absurd h (by decide)
  · rw [ha2, if_pos (by simp [hh])] at h ⊢
    have h4 : medium_risk_keywords.foldl (kwStepMedium combined) a1 = a1 :=
      foldl_kwStepMedium_low combined _ _ h
    rw [h4] at h ⊢
    have h5 : a1 = ([], "low") := by
      rw [ha1] at h ⊢
      exact foldl_kwStepHigh_low combined _ _ h
    rw [h5]

/-- The policy risk level is one of `"low"`, `"medium"`, `"high"`. -/
theorem check_policy_risk_values (rwd : Rewritten) :
    (QualityGates.check_policy rwd).1 = "low" ∨
    (QualityGates.check_policy rwd).1 = "medium" ∨
    (QualityGates.check_policy rwd).1 = "high" :=
  policyPipeline_risk _

/-- If the policy risk level comes back `"low"`, the policy gate reported no
issues. -/
theorem check_policy_low_no_issues (rwd : Rewritten)
    (h : (QualityGates.check_policy rwd).1 = "low") :
    (QualityGates.check_policy rwd).2 = [] :=
  policyPipeline_low_no_issues _ h

/-- C4: the quality verdict's aggregation — `ok` (the spec's `passed`) holds
exactly when no sub-check produced any issue and the risk level is not
`"high"`; `needs_review` holds exactly when the risk level is `"medium"` or
`"high"`, or the similarity check flagged the text as too similar, or the
sanity check produced at least one issue. -/
theorem c4_quality_check_aggregate (g : QualityGates) (original : Extracted)
    (rwd : Rewritten) :
    ((g.check original rwd).ok = true ↔
      ((g.check original rwd).issues = [] ∧
       (g.check original rwd).risk_level ≠ "high")) ∧
    ((g.check original rwd).needs_review = true ↔
      ((g.check original rwd).risk_level = "medium" ∨
       (g.check original rwd).risk_level = "high" ∨
       (g.check_similarity original.text rwd.body_markdown).1 = true ∨
       g.check_sanity rwd ≠ [])) := by
  constructor
  · simp only [QualityGates.check, Bool.and_eq_true, decide_eq_true_eq,
      List.length_eq_zero]
  · simp only [QualityGates.check, Bool.or_eq_true, decide_eq_true_eq,
      List.length_pos, or_assoc]

/-- C9 (implicit): every failing quality verdict is flagged for human review —
`ok = false` implies `needs_review = true`. -/
theorem c9_failed_verdict_needs_review (g : QualityGates) (original : Extracted)
    (rwd : Rewritten) (h : (g.check original rwd).ok = false) :
    (g.check original rwd).needs_review = true := by
  simp only [QualityGates.check, Bool.and_eq_false_iff, decide_eq_false_iff_not,
    List.length_eq_zero, ne_eq, not_not, List.append_eq_nil] at h
  simp only [QualityGates.check, Bool.or_eq_true, decide_eq_true_eq,
    List.length_pos, ne_eq]
  rcases h with h | h
  · by_cases hs : (g.check_similarity original.text rwd.body_markdown).1 = true
    · tauto
    · rw [Bool.not_eq_true] at hs
      by_cases hsan : g.check_sanity rwd = []
      · have hpol : (QualityGates.check_policy rwd).2 ≠ [] := by
          intro hp
          apply h
          refine ⟨⟨?_, hsan⟩, hp⟩
          simp [hs]
        rcases check_policy_risk_values rwd with hr | hr | hr
        · exact absurd (check_policy_low_no_issues rwd hr) hpol
        · tauto
        · tauto
      · tauto
  · tauto

/-- Closed witness for `c9_failed_verdict_needs_review`: a concrete failing
verdict (short rewritten body) that is indeed flagged for review. -/
theorem c9_failed_verdict_needs_review_witness :
    (gFailSim.check extractedFix rewrittenShort).ok = false ∧
    (gFailSim.check extractedFix rewrittenShort).needs_review = true :=
  ⟨by decide,
   c9_failed_verdict_needs_review gFailSim extractedFix rewrittenShort (by decide)⟩

/-! ### C5: short title is skipped before the dedupe step -/

/-- C5: when extraction succeeds with a stripped body of at least 100
characters but a stripped title of fewer than 10, `process_article` returns
`status = "skipped"` with the reason naming the deficient title field and its
length, leaves the fingerprint store untouched, and never invokes
`check_duplicate`. -/
theorem c5_short_title_skipped {E : Type} (c : Collaborators E) (store : HashStore)
    (clock : List ℚ) (nowIso : String) (cand : Candidate) (extracted : Extracted)
    (hx : c.extract cand.url cand.source = Except.ok extracted)
    (hText : 100 ≤ (pyStrip extracted.text.toList).length)
    (hTitle : (pyStrip extracted.title.toList).length < 10) :
    (process_article c store clock nowIso cand).1.status = "skipped" ∧
    (process_article c store clock nowIso cand).1.reason =
      some ("empty_title: " ++ toString (pyStrip extracted.title.toList).length ++
        " caratteri") ∧
    (process_article c store clock nowIso cand).2.1 = store ∧
    "check_duplicate" ∉ (process_article c store clock nowIso cand).2.2 := by
  have hcond1 : ¬(pyStripStr extracted.text = "" ∨
      (pyStripStr extracted.text).toList.length < 100) := by
    rintro (he | hl)
    · have h0 : (pyStrip extracted.text.toList).length = 0 := by
        have : (pyStripStr extracted.text).toList = pyStrip extracted.text.toList := rfl
        rw [← this, he]
        rfl
      omega
    · have : (pyStripStr extracted.text).toList = pyStrip extracted.text.toList := rfl
      rw [this] at hl
      omega
  have hcond2 : pyStripStr extracted.title = "" ∨
      (pyStripStr extracted.title).toList.length < 10 := Or.inr hTitle
  simp only [process_article, hx]
  rw [if_neg hcond1, if_pos hcond2]
  exact ⟨rfl, rfl, rfl, show "check_duplicate" ∉ ["extract"] by decide⟩

/-- Closed witness for `c5_short_title_skipped`: a concrete candidate whose
extraction yields a 120-character body and the 5-character title `"Breve"`. -/
theorem c5_short_title_skipped_witness :
    collabShortTitle.extract candFix.url candFix.source = Except.ok extractedShortTitle ∧
    100 ≤ (pyStrip extractedShortTitle.text.toList).length ∧
    (pyStrip extractedShortTitle.title.toList).length < 10 ∧
    (process_article collabShortTitle [] [0, 0, 0] "t0" candFix).1.status = "skipped" ∧
    (process_article collabShortTitle [] [0, 0, 0] "t0" candFix).1.reason =
      some "empty_title: 5 caratteri" ∧
    "check_duplicate" ∉ (process_article collabShortTitle [] [0, 0, 0] "t0" candFix).2.2 := by
  have h := c5_short_title_skipped collabShortTitle [] [0, 0, 0] "t0" candFix
    extractedShortTitle rfl (by decide) (by decide)
  exact ⟨rfl, by decide, by decide, h.1, h.2.1, h.2.2.2⟩

/-! ### C6: the `total` timing entry -/

/-- Counterexample to "the timing map always contains a `total` entry": a
candidate skipped at the title check returns a timing map holding only
`extract` — no `total` key — contradicting the claim for the `skipped`
terminations. -/
theorem c6_total_timing_counterexample :
    (process_article collabShortTitle [] [0, 0, 0] "t0" candFix).1.status = "skipped" ∧
    hasKey (process_article collabShortTitle [] [0, 0, 0] "t0" candFix).1.timing
      "total" = false := by
  decide

/-- C6 (amended): the timing map contains a `total` entry exactly on the
paths that assign it — a `created` termination and every termination through
the top-level exception handler (a raising extract, rewrite, or publish
call); every `skipped` termination and the publish-returned-no-id
`wp_post_creation_failed` failure return a timing map without a `total`
entry. -/
theorem c6_total_timing_amended {E : Type} (c : Collaborators E) (store : HashStore)
    (clock : List ℚ) (nowIso : String) (cand : Candidate) :
    ((process_article c store clock nowIso cand).1.status = "created" →
      hasKey (process_article c store clock nowIso cand).1.timing "total" = true) ∧
    ((process_article c store clock nowIso cand).1.status = "skipped" →
      hasKey (process_article c store clock nowIso cand).1.timing "total" = false) ∧
    (∀ e, c.extract cand.url cand.source = Except.error e →
      (process_article c store clock nowIso cand).1.status = "failed" ∧
      hasKey (process_article c store clock nowIso cand).1.timing "total" = true) ∧
    (∀ extracted e, c.extract cand.url cand.source = Except.ok extracted →
      ¬(pyStripStr extracted.text = "" ∨
        (pyStripStr extracted.text).toList.length < 100) →
      ¬(pyStripStr extracted.title = "" ∨
        (pyStripStr extracted.title).toList.length < 10) →
      ¬(c.dedup.check_duplicate store extracted.canonical_url extracted.title
          (some extracted.text)).is_duplicate = true →
      c.rewrite extracted = Except.error e →
      (process_article c store clock nowIso cand).1.status = "failed" ∧
      hasKey (process_article c store clock nowIso cand).1.timing "total" = true) ∧
    (∀ extracted rewritten create_post e,
      c.extract cand.url cand.source = Except.ok extracted →
      ¬(pyStripStr extracted.text = "" ∨
        (pyStripStr extracted.text).toList.length < 100) →
      ¬(pyStripStr extracted.title = "" ∨
        (pyStripStr extracted.title).toList.length < 10) →
      ¬(c.dedup.check_duplicate store extracted.canonical_url extracted.title
          (some extracted.text)).is_duplicate = true →
      c.rewrite extracted = Except.ok rewritten →
      ¬((c.gates.check extracted rewritten).ok = false ∨
        (c.gates.check extracted rewritten).risk_level = "high") →
      c.wp_client = some create_post →
      create_post rewritten extracted (c.gates.check extracted rewritten) =
        Except.error e →
      (process_article c store clock nowIso cand).1.status = "failed" ∧
      hasKey (process_article c store clock nowIso cand).1.timing "total" = true) ∧
    (∀ extracted rewritten create_post pid?,
      c.extract cand.url cand.source = Except.ok extracted →
      ¬(pyStripStr extracted.text = "" ∨
        (pyStripStr extracted.text).toList.length < 100) →
      ¬(pyStripStr extracted.title = "" ∨
        (pyStripStr extracted.title).toList.length < 10) →
      ¬(c.dedup.check_duplicate store extracted.canonical_url extracted.title
          (some extracted.text)).is_duplicate = true →
      c.rewrite extracted = Except.ok rewritten →
      ¬((c.gates.check extracted rewritten).ok = false ∨
        (c.gates.check extracted rewritten).risk_level = "high") →
      c.wp_client = some create_post →
      create_post rewritten extracted (c.gates.check extracted rewritten) =
        Except.ok pid? →
      (match pid? with
       | none => true
       | some pid => pid == 0) = true →
      (process_article c store clock nowIso cand).1.status = "failed" ∧
      (process_article c store clock nowIso cand).1.reason =
        some "wp_post_creation_failed" ∧
      hasKey (process_article c store clock nowIso cand).1.timing "total" = false) := by
  have hmain : ((process_article c store clock nowIso cand).1.status = "created" →
      hasKey (process_article c store clock nowIso cand).1.timing "total" = true) ∧
      ((process_article c store clock nowIso cand).1.status = "skipped" →
      hasKey (process_article c store clock nowIso cand).1.timing "total" = false) := by
    rcases hex : c.extract cand.url cand.source with e | extracted
    · simp only [process_article, hex, exceptHandler]
      exact ⟨fun h => absurd (show "failed" = "created" from h) (by decide),
             fun h => absurd (show "failed" = "skipped" from h) (by decide)⟩
    · by_cases h1 : pyStripStr extracted.text = "" ∨
          (pyStripStr extracted.text).toList.length < 100
      · simp only [process_article, hex]
        rw [if_pos h1]
        exact ⟨fun h => absurd (show "skipped" = "created" from h) (by decide),
               fun _ => rfl⟩
      · by_cases h2 : pyStripStr extracted.title = "" ∨
            (pyStripStr extracted.title).toList.length < 10
        · simp only [process_article, hex]
          rw [if_neg h1, if_pos h2]
          exact ⟨fun h => absurd (show "skipped" = "created" from h) (by decide),
                 fun _ => rfl⟩
        · by_cases h3 : (c.dedup.check_duplicate store extracted.canonical_url
              extracted.title (some extracted.text)).is_duplicate = true
          · simp only [process_article, hex]
            rw [if_neg h1, if_neg h2, if_pos h3]
            exact ⟨fun h => absurd (show "skipped" = "created" from h) (by decide),
                   fun _ => rfl⟩
          · rcases hrw : c.rewrite extracted with e | rewritten
            · simp only [process_article, hex, hrw, exceptHandler]
              rw [if_neg h1, if_neg h2, if_neg h3]
              exact ⟨fun h => absurd (show "failed" = "created" from h) (by decide),
                     fun h => absurd (show "failed" = "skipped" from h) (by decide)⟩
            · by_cases h4 : (c.gates.check extracted rewritten).ok = false ∨
                  (c.gates.check extracted rewritten).risk_level = "high"
              · simp only [process_article, hex, hrw]
                rw [if_neg h1, if_neg h2, if_neg h3, if_pos h4]
                exact ⟨fun h => absurd (show "skipped" = "created" from h) (by decide),
                       fun _ => rfl⟩
              · rcases hwp : c.wp_client with _ | create_post
                · simp only [process_article, hex, hrw, hwp]
                  rw [if_neg h1, if_neg h2, if_neg h3, if_neg h4]
                  exact ⟨fun h => absurd (show "skipped" = "created" from h) (by decide),
                         fun _ => rfl⟩
                · rcases hcp : create_post rewritten extracted
                      (c.gates.check extracted rewritten) with e | pid?
                  · simp only [process_article, hex, hrw, hwp, hcp, exceptHandler]
                    rw [if_neg h1, if_neg h2, if_neg h3, if_neg h4]
                    exact ⟨fun h => absurd (show "failed" = "created" from h) (by decide),
                           fun h => absurd (show "failed" = "skipped" from h) (by decide)⟩
                  · rcases pid? with _ | pid
                    · simp only [process_article, hex, hrw, hwp, hcp]
                      rw [if_neg h1, if_neg h2, if_neg h3, if_neg h4]
                      exact ⟨fun h => absurd (show "failed" = "created" from h) (by decide),
                             fun h => absurd (show "failed" = "skipped" from h) (by decide)⟩
                    · by_cases h5 : pid = 0
                      · subst h5
                        simp only [process_article, hex, hrw, hwp, hcp]
                        rw [if_neg h1, if_neg h2, if_neg h3, if_neg h4]
                        exact ⟨fun h => absurd (show "failed" = "created" from h) (by decide),
                               fun h => absurd (show "failed" = "skipped" from h) (by decide)⟩
                      · simp only [process_article, hex, hrw, hwp, hcp]
                        rw [if_neg h1, if_neg h2, if_neg h3, if_neg h4,
                          if_neg (show ¬((pid == 0) = true) from by simp [h5])]
                        exact ⟨fun _ => rfl,
                               fun h => absurd (show "created" = "skipped" from h) (by decide)⟩
  refine ⟨hmain.1, hmain.2, ?_, ?_, ?_, ?_⟩
  · intro e he
    simp only [process_article, he, exceptHandler]
    exact ⟨by trivial, by trivial⟩
  · intro extracted e hex h1 h2 h3 hrw
    simp only [process_article, hex, hrw, exceptHandler]
    rw [if_neg h1, if_neg h2, if_neg h3]
    exact ⟨by trivial, by trivial⟩
  · intro extracted rewritten create_post e hex h1 h2 h3 hrw h4 hwp hcp
    simp only [process_article, hex, hrw, hwp, hcp, exceptHandler]
    rw [if_neg h1, if_neg h2, if_neg h3, if_neg h4]
    exact ⟨by trivial, by trivial⟩
  · intro extracted rewritten create_post pid? hex h1 h2 h3 hrw h4 hwp hcp h5
    simp only [process_article, hex, hrw, hwp, hcp]
    rw [if_neg h1, if_neg h2, if_neg h3, if_neg h4, if_pos h5]
    exact ⟨by trivial, by trivial, by trivial⟩

/-- Closed witness for `c6_total_timing_amended`: a raising extractor and a
raising rewriter both put `total` into the `failed` outcome's timing map; a
skipped candidate and the publish-returned-no-id failure both lack the
entry. -/
theorem c6_total_timing_amended_witness :
    collabFailU2.extract candU2.url candU2.source = Except.error "boom" ∧
    hasKey (process_article collabFailU2 [] [0, 0, 0] "t0" candU2).1.timing
      "total" = true ∧
    (process_article collabShortTitle [] [0, 0, 0] "t0" candFix).1.status = "skipped" ∧
    hasKey (process_article collabShortTitle [] [0, 0, 0] "t0" candFix).1.timing
      "total" = false ∧
    collabRewriteFail.rewrite extractedGood = Except.error "llm failure" ∧
    (process_article collabRewriteFail [] [] "t0" candFix).1.status = "failed" ∧
    hasKey (process_article collabRewriteFail [] [] "t0" candFix).1.timing
      "total" = true ∧
    (process_article collabWpNoId [] [] "t0" candFix).1.status = "failed" ∧
    (process_article collabWpNoId [] [] "t0" candFix).1.reason =
      some "wp_post_creation_failed" ∧
    hasKey (process_article collabWpNoId [] [] "t0" candFix).1.timing
      "total" = false := by
  have hrwf := (c6_total_timing_amended collabRewriteFail [] [] "t0" candFix).2.2.2.1
    extractedGood "llm failure" rfl (by decide) (by decide) (by decide) rfl
  have hwpn := (c6_total_timing_amended collabWpNoId [] [] "t0" candFix).2.2.2.2.2
    extractedGood rewrittenGood (fun _ _ _ => Except.ok none) none rfl
    (by decide) (by decide) (by decide) rfl (by decide) rfl rfl rfl
  refine ⟨rfl, ?_, by decide, ?_, rfl, hrwf.1, hrwf.2, hwpn.1, hwpn.2.1, hwpn.2.2⟩
  · exact ((c6_total_timing_amended collabFailU2 [] [0, 0, 0] "t0" candU2).2.2.1
      "boom" rfl).2
  · exact (c6_total_timing_amended collabShortTitle [] [0, 0, 0] "t0" candFix).2.1
      (by decide)

/-! ### C7: the run orchestrator always finalizes -/

/-- A raising extractor makes `process_article` return `failed` (the exception
text as reason) without touching the store. -/
theorem process_article_extract_error {E : Type} (c : Collaborators E)
    (store : HashStore) (clock : List ℚ) (nowIso : String) (cand : Candidate)
    (e : String) (hx : c.extract cand.url cand.source = Except.error e) :
    (process_article c store clock nowIso cand).1.status = "failed" ∧
    (process_article c store clock nowIso cand).2.1 = store := by
  simp [process_article, hx, exceptHandler]

/-- `bumpCounters` never touches `processed`. -/
theorem bumpCounters_processed (stats : RunStats) (st : String) :
    (bumpCounters stats st).processed = stats.processed := by
  unfold bumpCounters
  by_cases h1 : st = "created" <;> by_cases h2 : st = "skipped" <;>
    by_cases h3 : st = "failed" <;> simp [h1, h2, h3]

/-- `bumpCounters` leaves `failed` alone unless the status is `"failed"`. -/
theorem bumpCounters_failed_of_ne (stats : RunStats) (st : String)
    (h : st ≠ "failed") : (bumpCounters stats st).failed = stats.failed := by
  unfold bumpCounters
  by_cases h1 : st = "created" <;> by_cases h2 : st = "skipped" <;>
    simp [h1, h2, h]

/-- `bumpCounters` increments `failed` on a `"failed"` status. -/
theorem bumpCounters_failed_of_eq (stats : RunStats) (st : String)
    (h : st = "failed") : (bumpCounters stats st).failed = stats.failed + 1 := by
  subst h
  rfl

/-- C7: the run always finalizes — whatever the fetch result and wherever a
`KeyboardInterrupt` strikes, the final RunState has `status = "completed"`
with `completed_at` set and the persisted report carries the run id and the
final counters; moreover for a batch of three candidates whose second raises
inside `process_article` while the other two do not fail, the final counters
show `processed = 3` and exactly one `failed`. -/
theorem c7_run_finalizes {E : Type} (c : Collaborators E)
    (run_id startedAt nowIso completedAt : String) (clocks : Nat → List ℚ)
    (fetchResult : Except String (List Candidate)) (interrupt : Option Nat)
    (store : HashStore) :
    (runModel c run_id startedAt nowIso completedAt clocks fetchResult interrupt
      store).2.1.status = "completed" ∧
    (runModel c run_id startedAt nowIso completedAt clocks fetchResult interrupt
      store).2.1.completed_at = some completedAt ∧
    (runModel c run_id startedAt nowIso completedAt clocks fetchResult interrupt
      store).2.2 =
      { run_id := run_id,
        stats := (runModel c run_id startedAt nowIso completedAt clocks fetchResult
          interrupt store).2.1 } ∧
    (∀ cand1 cand2 cand3 e,
      fetchResult = Except.ok [cand1, cand2, cand3] → interrupt = none →
      c.extract cand2.url cand2.source = Except.error e →
      (process_article c store (clocks 1) nowIso cand1).1.status ≠ "failed" →
      (process_article c (process_article c store (clocks 1) nowIso cand1).2.1
        (clocks 3) nowIso cand3).1.status ≠ "failed" →
      (runModel c run_id startedAt nowIso completedAt clocks fetchResult interrupt
        store).2.1.processed = 3 ∧
      (runModel c run_id startedAt nowIso completedAt clocks fetchResult interrupt
        store).2.1.failed = 1) := by
  refine ⟨rfl, rfl, rfl, ?_⟩
  intro cand1 cand2 cand3 e hf hintr hx h1 h3
  subst hf
  subst hintr
  have h2 := process_article_extract_error c
    (process_article c store (clocks 1) nowIso cand1).2.1 (clocks 2) nowIso cand2 e hx
  have hcond : ¬((none : Option ℕ) = some 0) := by decide
  simp only [runModel, runLoop, Option.map_none', if_neg hcond]
  simp only [h2.2]
  constructor
  · simp [bumpCounters_processed]
  · simp only [bumpCounters_failed_of_ne _ _ h3, bumpCounters_failed_of_eq _ _ h2.1,
      bumpCounters_failed_of_ne _ _ h1]

/-- Closed witness for `c7_run_finalizes`: three candidates, the second's
extraction raises, the others are skipped; the finalized state and counters. -/
theorem c7_run_finalizes_witness :
    collabFailU2.extract candU2.url candU2.source = Except.error "boom" ∧
    (process_article collabFailU2 [] [] "t0" candU1).1.status ≠ "failed" ∧
    (process_article collabFailU2 (process_article collabFailU2 [] [] "t0" candU1).2.1
      [] "t0" candU3).1.status ≠ "failed" ∧
    (runModel collabFailU2 "rid" "s0" "t0" "c0" (fun _ => [])
      (Except.ok [candU1, candU2, candU3]) none []).2.1.status = "completed" ∧
    (runModel collabFailU2 "rid" "s0" "t0" "c0" (fun _ => [])
      (Except.ok [candU1, candU2, candU3]) none []).2.1.completed_at = some "c0" ∧
    (runModel collabFailU2 "rid" "s0" "t0" "c0" (fun _ => [])
      (Except.ok [candU1, candU2, candU3]) none []).2.1.processed = 3 ∧
    (runModel collabFailU2 "rid" "s0" "t0" "c0" (fun _ => [])
      (Except.ok [candU1, candU2, candU3]) none []).2.1.failed = 1 := by
  have h := c7_run_finalizes collabFailU2 "rid" "s0" "t0" "c0" (fun _ => [])
    (Except.ok [candU1, candU2, candU3]) none []
  have hb := h.2.2.2 candU1 candU2 candU3 "boom" rfl rfl rfl (by decide) (by decide)
  exact ⟨rfl, by decide, by decide, h.1, h.2.1, hb.1, hb.2⟩

/-! ### C8: monitor start/stop idempotence -/

/-- C8: `stop` while not running is a no-op apart from the reported warning
(the running flag stays `false`); `start` while running only reports a warning
(flags and spawned loops untouched); and starting twice from the initial
state leaves exactly one active monitor loop. -/
theorem c8_monitor_start_stop_idempotent (m : FeedMonitor) (now now₁ now₂ : String) :
    (m.is_running = false →
      m.stop = { m with warnings := m.warnings ++ ["Monitor non in esecuzione"] }) ∧
    (m.is_running = true →
      m.start now = { m with warnings := m.warnings ++ ["Monitor già in esecuzione"] } ∧
      (m.start now).is_running = true ∧ (m.start now).activeLoops = m.activeLoops) ∧
    ((FeedMonitor.init.start now₁).start now₂).activeLoops = 1 := by
  refine ⟨?_, ?_, ?_⟩
  · intro h
    simp [FeedMonitor.stop, h]
  · intro h
    refine ⟨?_, ?_, ?_⟩ <;> simp [FeedMonitor.start, h]
  · rfl

/-- Closed witness for `c8_monitor_start_stop_idempotent`, at the initial
monitor state. -/
theorem c8_monitor_start_stop_idempotent_witness :
    FeedMonitor.init.is_running = false ∧
    FeedMonitor.init.stop =
      { FeedMonitor.init with warnings := ["Monitor non in esecuzione"] } ∧
    (FeedMonitor.init.start "t1").is_running = true ∧
    (FeedMonitor.init.start "t1").start "t2" =
      { FeedMonitor.init.start "t1" with
        warnings := (FeedMonitor.init.start "t1").warnings ++
          ["Monitor già in esecuzione"] } ∧
    ((FeedMonitor.init.start "t1").start "t2").activeLoops = 1 := by
  have h := c8_monitor_start_stop_idempotent FeedMonitor.init "x" "t1" "t2"
  have h2 := c8_monitor_start_stop_idempotent (FeedMonitor.init.start "t1") "t2" "t1" "t2"
  refine ⟨rfl, ?_, rfl, ?_, ?_⟩
  · simpa using h.1 rfl
  · exact (h2.2.1 rfl).1
  · exact h.2.2

end NewsTracker
